import Mathlib

/-!
Shallow embedding of the product-catalog service of this repository
(`server.js`, `scripts/init-db.js`, `scripts/seed-db.js`).

The embedding models:
* the JavaScript primitives the route handlers rely on (`parseInt`,
  `parseFloat`, truthiness of query-string values, `||` defaulting,
  `toUpperCase`, `trim`, `Number.prototype.toFixed`);
* the SQLite behaviour the handlers depend on (`LIKE` matching,
  `LIMIT`/`OFFSET` semantics including negative values, `ORDER BY`,
  `GROUP BY` on exact strings, binding of JavaScript `NaN` as `NULL`);
* the route handlers themselves: the `/api/products` list endpoint
  (query building, pagination), `POST /api/products`,
  `PUT /api/products/:id`, `/api/statistics` and the CSV export.

Numbers are modelled with `Int`/`ℚ`; a JavaScript number that may be
`NaN` or infinite is modelled by `JSNum`.
-/

namespace LookupTool

/-- JavaScript number results that matter to the handlers: `parseFloat`
can produce `NaN` or an infinity as well as a finite value. -/
inductive JSNum where
  | nan
  | posInf
  | negInf
  | fin (q : ℚ)
  deriving DecidableEq

/-- Whitespace as skipped by JavaScript `parseInt` / `parseFloat` /
`String.prototype.trim` (the ASCII cases that can appear in query
strings). -/
def jsIsWS (c : Char) : Bool :=
  c = ' ' || c = '\t' || c = '\n' || c = '\r' || c = '\x0b' || c = '\x0c'

/-- Numeric value of a list of decimal digit characters. -/
def natOfDigits (ds : List Char) : Nat :=
  ds.foldl (fun a c => a * 10 + (c.toNat - 48)) 0

/-- Is `c` a hexadecimal digit? -/
def isHexDigit (c : Char) : Bool :=
  c.isDigit || ('a' ≤ c && c ≤ 'f') || ('A' ≤ c && c ≤ 'F')

/-- Numeric value of one hexadecimal digit character. -/
def hexVal (c : Char) : Nat :=
  if c.isDigit then c.toNat - 48
  else if 'a' ≤ c && c ≤ 'f' then c.toNat - 87
  else c.toNat - 55

/-- Numeric value of a list of hexadecimal digit characters. -/
def natOfHexDigits (ds : List Char) : Nat :=
  ds.foldl (fun a c => a * 16 + hexVal c) 0

/-- JavaScript `parseInt(s)` (radix unspecified): skip whitespace, read
an optional sign, honour a `0x`/`0X` prefix as hexadecimal, then read
the longest run of digits; `none` models `NaN`. -/
def parseIntJS (s : String) : Option Int :=
  let cs := s.data.dropWhile jsIsWS
  let sgn : Int := match cs with
    | '-' :: _ => -1
    | _ => 1
  let cs := match cs with
    | '-' :: r => r
    | '+' :: r => r
    | r => r
  match cs with
  | '0' :: 'x' :: r =>
      let ds := r.takeWhile isHexDigit
      if ds.isEmpty then none else some (sgn * (natOfHexDigits ds : Int))
  | '0' :: 'X' :: r =>
      let ds := r.takeWhile isHexDigit
      if ds.isEmpty then none else some (sgn * (natOfHexDigits ds : Int))
  | r =>
      let ds := r.takeWhile Char.isDigit
      if ds.isEmpty then none else some (sgn * (natOfDigits ds : Int))

/-- Exponent part of a JavaScript decimal literal: after `e`/`E`, an
optionally signed digit run; an `e` not followed by a digit contributes
no exponent (the valid literal prefix ends before it). -/
def expDigits : List Char → Int
  | '-' :: r =>
      let ds := r.takeWhile Char.isDigit
      if ds.isEmpty then 0 else -(natOfDigits ds : Int)
  | '+' :: r =>
      let ds := r.takeWhile Char.isDigit
      if ds.isEmpty then 0 else (natOfDigits ds : Int)
  | r =>
      let ds := r.takeWhile Char.isDigit
      if ds.isEmpty then 0 else (natOfDigits ds : Int)

/-- Exponent read at the end of a JavaScript decimal literal. -/
def expOf : List Char → Int
  | 'e' :: r => expDigits r
  | 'E' :: r => expDigits r
  | _ => 0

/-- JavaScript `parseFloat(s)`: skip whitespace, optional sign,
`Infinity`, or the longest decimal-literal prefix
(`digits [. digits] [exponent]`); `JSNum.nan` models `NaN`. -/
def parseFloatJS (s : String) : JSNum :=
  let cs := s.data.dropWhile jsIsWS
  let neg : Bool := match cs with
    | '-' :: _ => true
    | _ => false
  let cs := match cs with
    | '-' :: r => r
    | '+' :: r => r
    | r => r
  if "Infinity".data.isPrefixOf cs then
    if neg then JSNum.negInf else JSNum.posInf
  else
    let ip := cs.takeWhile Char.isDigit
    let r1 := cs.dropWhile Char.isDigit
    let fp := match r1 with
      | '.' :: r => r.takeWhile Char.isDigit
      | _ => []
    let r2 := match r1 with
      | '.' :: r => r.dropWhile Char.isDigit
      | r => r
    if ip.isEmpty && fp.isEmpty then JSNum.nan
    else
      let mant : ℚ :=
        (natOfDigits ip : ℚ) + (natOfDigits fp : ℚ) / ((10 : ℚ) ^ fp.length)
      let v := mant * (10 : ℚ) ^ expOf r2
      JSNum.fin (if neg then -v else v)

/-- Truthiness of an optional query-string value: absent (`undefined`)
and the empty string are falsy, every other string is truthy. -/
def truthy : Option String → Bool
  | none => false
  | some s => !(s = "")

/-- JavaScript `x || d` applied to the result of `parseInt`: `NaN`
(here `none`) and `0` both fall back to the default. -/
def jsOr (v : Option Int) (d : Int) : Int :=
  match v with
  | none => d
  | some 0 => d
  | some n => n

/-- ASCII upper-casing, as `String.prototype.toUpperCase` behaves on
the ASCII strings compared against `"DESC"`. -/
def asciiUpper (s : String) : String :=
  ⟨s.data.map Char.toUpper⟩

/-- JavaScript `String.prototype.trim`. -/
def jsTrim (s : String) : String :=
  ⟨((s.data.dropWhile jsIsWS).reverse.dropWhile jsIsWS).reverse⟩

/-- SQLite `LIKE` is case-insensitive on ASCII letters only; this is
the fold it applies to both sides before comparing. -/
def sqliteFoldCase (c : Char) : Char :=
  if 'A' ≤ c && c ≤ 'Z' then Char.ofNat (c.toNat + 32) else c

/-- SQLite `LIKE` pattern matching (`%` any run, `_` any one
character, other characters compared ASCII-case-insensitively). -/
def likeMatch : List Char → List Char → Bool
  | [], [] => true
  | [], _ :: _ => false
  | '%' :: ps, [] => likeMatch ps []
  | '%' :: ps, t :: ts => likeMatch ps (t :: ts) || likeMatch ('%' :: ps) ts
  | '_' :: _, [] => false
  | '_' :: ps, _ :: ts => likeMatch ps ts
  | _ :: _, [] => false
  | p :: ps, t :: ts => (sqliteFoldCase p = sqliteFoldCase t) && likeMatch ps ts
  termination_by ps ts => (ps.length, ts.length)

/-- Evaluation of a LIKE clause as the handlers use it: the term is
wrapped in percent signs as a substring pattern. -/
def likeContains (term target : String) : Bool :=
  likeMatch ('%' :: term.data ++ ['%']) target.data

/-- Byte-wise (code-point-wise) lexicographic order on strings: the
comparison the SQLite default `BINARY` collation applies to `TEXT`
columns in `ORDER BY`. -/
def lexLe : List Char → List Char → Bool
  | [], _ => true
  | _ :: _, [] => false
  | a :: as, b :: bs => if a = b then lexLe as bs else decide (a < b)

/-- A row of the `products` table (`scripts/init-db.js`): `id`,
`category`, `name`, `code` are `TEXT NOT NULL` (`id` the primary key),
`description` is nullable `TEXT`, `quantity` is `INTEGER NOT NULL`,
`unit_price` is `REAL NOT NULL`, and the two timestamps default to
`CURRENT_TIMESTAMP` (modelled as abstract instants). -/
structure Product where
  id : String
  category : String
  name : String
  description : Option String
  quantity : Int
  unit_price : ℚ
  code : String
  created_at : Nat
  updated_at : Nat
  deriving DecidableEq

/-- The query-string of a `GET /api/products` request: every parameter
is an optionally-present string. -/
structure ListRequest where
  category : Option String := none
  search : Option String := none
  minPrice : Option String := none
  maxPrice : Option String := none
  sortBy : Option String := none
  order : Option String := none
  page : Option String := none
  limit : Option String := none
  deriving DecidableEq

/-- A value bound into an SQL query by the handlers. -/
inductive SQLParam where
  | str (s : String)
  | num (v : JSNum)
  | int (n : Int)
  deriving DecidableEq

/-- The state the list handler threads through its `if` blocks: the
page query text, the count query text, and the bound parameters. -/
structure QueryBuild where
  query : String
  countQuery : String
  params : List SQLParam
  deriving DecidableEq

/-- Source: const pageNum = parseInt(page) with fallback 1 (and
destructuring default 1). -/
def pageNum (req : ListRequest) : Int :=
  jsOr (parseIntJS (req.page.getD "1")) 1

/-- Source: const limitNum = parseInt(limit) with fallback 20 (and
destructuring default 20). -/
def limitNum (req : ListRequest) : Int :=
  jsOr (parseIntJS (req.limit.getD "20")) 20

/-- Source: const offset = (pageNum - 1) * limitNum. -/
def listOffset (req : ListRequest) : Int :=
  (pageNum req - 1) * limitNum req

/-- The category block: when the category value is truthy, append the
category clause to both query texts and push the wrapped pattern. -/
def addCategory (req : ListRequest) (st : QueryBuild) : QueryBuild :=
  if truthy req.category then
    { query := st.query ++ " AND category LIKE ?"
      countQuery := st.countQuery ++ " AND category LIKE ?"
      params := st.params ++ [SQLParam.str ("%" ++ req.category.getD "" ++ "%")] }
  else st

/-- The search block: when the search value is truthy, append the
three-way search clause and push the search term three times. -/
def addSearch (req : ListRequest) (st : QueryBuild) : QueryBuild :=
  if truthy req.search then
    let searchTerm := "%" ++ req.search.getD "" ++ "%"
    { query := st.query ++ " AND (name LIKE ? OR description LIKE ? OR code LIKE ?)"
      countQuery := st.countQuery ++ " AND (name LIKE ? OR description LIKE ? OR code LIKE ?)"
      params := st.params ++ [SQLParam.str searchTerm, SQLParam.str searchTerm,
        SQLParam.str searchTerm] }
  else st

/-- The minPrice block: when the value is truthy, append the lower
price clause and push parseFloat(minPrice). -/
def addMinPrice (req : ListRequest) (st : QueryBuild) : QueryBuild :=
  if truthy req.minPrice then
    { query := st.query ++ " AND unit_price >= ?"
      countQuery := st.countQuery ++ " AND unit_price >= ?"
      params := st.params ++ [SQLParam.num (parseFloatJS (req.minPrice.getD ""))] }
  else st

/-- The maxPrice block: when the value is truthy, append the upper
price clause and push parseFloat(maxPrice). -/
def addMaxPrice (req : ListRequest) (st : QueryBuild) : QueryBuild :=
  if truthy req.maxPrice then
    { query := st.query ++ " AND unit_price <= ?"
      countQuery := st.countQuery ++ " AND unit_price <= ?"
      params := st.params ++ [SQLParam.num (parseFloatJS (req.maxPrice.getD ""))] }
  else st

/-- Source: const validSortColumns = [id, name, category, quantity,
unit_price, code]. -/
def validSortColumns : List String :=
  ["id", "name", "category", "quantity", "unit_price", "code"]

/-- Source: const sortColumn is sortBy when
validSortColumns.includes(sortBy), else id (destructuring default id). -/
def sortColumn (req : ListRequest) : String :=
  if validSortColumns.contains (req.sortBy.getD "id") then req.sortBy.getD "id" else "id"

/-- Source: const sortOrder is DESC when order.toUpperCase() is DESC,
else ASC (destructuring default ASC). -/
def sortOrder (req : ListRequest) : String :=
  if asciiUpper (req.order.getD "ASC") = "DESC" then "DESC" else "ASC"

/-- The two query texts and the filter parameter list exactly as the
`GET /api/products` handler assembles them. -/
def buildQueries (req : ListRequest) : QueryBuild :=
  let st : QueryBuild :=
    { query := "SELECT * FROM products WHERE 1=1"
      countQuery := "SELECT COUNT(*) as total FROM products WHERE 1=1"
      params := [] }
  let st := addMaxPrice req (addMinPrice req (addSearch req (addCategory req st)))
  { st with query := st.query ++ " ORDER BY " ++ sortColumn req ++ " " ++ sortOrder req
      ++ " LIMIT ? OFFSET ?" }

/-- Parameters the count query is executed with: `db.get(countQuery,
params, ...)`. -/
def countExecParams (req : ListRequest) : List SQLParam :=
  (buildQueries req).params

/-- Parameters the page query is executed with: `db.all(query,
[...params, limitNum, offset], ...)`. -/
def pageExecParams (req : ListRequest) : List SQLParam :=
  (buildQueries req).params ++ [SQLParam.int (limitNum req), SQLParam.int (listOffset req)]

/-- SQLite evaluation of `unit_price >= ?` for a bound JavaScript
number: `NaN` is bound as `NULL`, so the comparison is not true for any
row; an infinity is an ordinary extreme real. -/
def priceGE (price : ℚ) : JSNum → Bool
  | JSNum.nan => false
  | JSNum.posInf => false
  | JSNum.negInf => true
  | JSNum.fin q => q ≤ price

/-- SQLite evaluation of `unit_price <= ?` for a bound JavaScript
number. -/
def priceLE (price : ℚ) : JSNum → Bool
  | JSNum.nan => false
  | JSNum.posInf => true
  | JSNum.negInf => false
  | JSNum.fin q => price ≤ q

/-- The `WHERE` clause of the built queries evaluated on one row:
`1=1`, ANDed with one clause per truthy filter field. A `NULL`
description makes its `LIKE` operand `NULL`, hence not a match. -/
def rowMatches (req : ListRequest) (p : Product) : Bool :=
  (if truthy req.category then likeContains (req.category.getD "") p.category else true)
  && (if truthy req.search then
        let s := req.search.getD ""
        likeContains s p.name
          || (match p.description with
              | none => false
              | some d => likeContains s d)
          || likeContains s p.code
      else true)
  && (if truthy req.minPrice then priceGE p.unit_price (parseFloatJS (req.minPrice.getD ""))
      else true)
  && (if truthy req.maxPrice then priceLE p.unit_price (parseFloatJS (req.maxPrice.getD ""))
      else true)

/-- The sort key comparison for `ORDER BY column ASC`: `TEXT` columns
compare under the `BINARY` collation, numeric columns numerically.
The column is always drawn from `validSortColumns`. -/
def colLe (col : String) (a b : Product) : Bool :=
  match col with
  | "name" => lexLe a.name.data b.name.data
  | "category" => lexLe a.category.data b.category.data
  | "quantity" => a.quantity ≤ b.quantity
  | "unit_price" => a.unit_price ≤ b.unit_price
  | "code" => lexLe a.code.data b.code.data
  | _ => lexLe a.id.data b.id.data

/-- The ORDER BY sortColumn sortOrder step applied to the matching
rows. -/
def sortRows (req : ListRequest) (rows : List Product) : List Product :=
  if sortOrder req = "DESC" then
    List.insertionSort (fun a b => colLe (sortColumn req) b a = true) rows
  else
    List.insertionSort (fun a b => colLe (sortColumn req) a b = true) rows

/-- SQLite `LIMIT ? OFFSET ?` with bound integers: a negative offset
behaves as `0`; a negative limit means no limit. -/
def applyLimitOffset (rows : List Product) (lim off : Int) : List Product :=
  let dropped := rows.drop off.toNat
  if lim < 0 then dropped else dropped.take lim.toNat

/-- Source: const totalPages = Math.ceil(total / limitNum). -/
def totalPagesOf (total : Nat) (lim : Int) : Int :=
  ⌈(total : ℚ) / (lim : ℚ)⌉

/-- The pagination object of the list response. -/
structure Pagination where
  page : Int
  limit : Int
  total : Nat
  totalPages : Int
  deriving DecidableEq

/-- The body of a `GET /api/products` response. -/
structure ListResponse where
  products : List Product
  pagination : Pagination
  deriving DecidableEq

/-- The rows matched by the shared `WHERE` clause, in table order. -/
def matchedRows (req : ListRequest) (db : List Product) : List Product :=
  db.filter (rowMatches req)

/-- The `GET /api/products` handler on a database state: run the count
query, run the page query, and assemble the response. -/
def listProducts (req : ListRequest) (db : List Product) : ListResponse :=
  let total := (matchedRows req db).length
  { products := applyLimitOffset (sortRows req (matchedRows req db))
      (limitNum req) (listOffset req)
    pagination :=
      { page := pageNum req
        limit := limitNum req
        total := total
        totalPages := totalPagesOf total (limitNum req) } }

/-- The JSON body of a `POST /api/products` request, with each field
possibly absent or of the wrong shape where the validators would care:
`quantity` and `unit_price` are absent or numbers, the text fields are
strings (absent text fields fail the length validators the same way an
empty string fails them, so they are modelled as strings). -/
structure PostBody where
  id : String
  category : String
  name : String
  description : Option String
  quantity : Option Int
  unit_price : Option ℚ
  code : String
  deriving DecidableEq

/-- The `.trim()` sanitizers of `validateProduct` mutate `req.body`
in place before the handler reads it. -/
def sanitizeBody (b : PostBody) : PostBody :=
  { b with
    id := jsTrim b.id
    category := jsTrim b.category
    name := jsTrim b.name
    description := b.description.map jsTrim
    code := jsTrim b.code }

/-- The id format check: three digits, a hyphen, two digits. -/
def matchesIdFormat (s : String) : Bool :=
  match s.data with
  | [a, b, c, h, d, e] =>
      a.isDigit && b.isDigit && c.isDigit && h = '-' && d.isDigit && e.isDigit
  | _ => false

/-- The `validateProduct` middleware chain on a (sanitized) body:
`id` matches the format, `category`/`name`/`code` have length in
bounds, `description` is optional with bounded length, `quantity` is a
non-negative integer, `unit_price` a non-negative number. -/
def validateProductB (b : PostBody) : Bool :=
  matchesIdFormat b.id
  && (1 ≤ b.category.length && b.category.length ≤ 100)
  && (1 ≤ b.name.length && b.name.length ≤ 200)
  && (match b.description with
      | none => true
      | some d => d.length ≤ 1000)
  && (match b.quantity with
      | none => false
      | some n => 0 ≤ n)
  && (match b.unit_price with
      | none => false
      | some q => 0 ≤ q)
  && (1 ≤ b.code.length && b.code.length ≤ 50)

/-- Outcome of `POST /api/products`. -/
inductive PostResult where
  | validationError
  | missingFields
  | created (row : Product)
  deriving DecidableEq

/-- Truthiness of a possibly-absent string field. -/
def truthyOptStr : Option String → Bool
  | none => false
  | some s => !(s = "")

/-- Truthiness of a possibly-absent number field: absent and `0` are
falsy. -/
def truthyOptNum : Option ℚ → Bool
  | none => false
  | some q => !(q = 0)

/-- The `POST /api/products` handler: the validator chain answers 400
first; then the truthiness test of the handler itself,
`!id || !category || !name || !description || quantity === undefined
|| !unit_price || !code` answers 400 `Missing required fields`;
otherwise the row is inserted with `parseFloat(unit_price)` and the
timestamp columns filled by their schema defaults (`now`). -/
def postProduct (now : Nat) (b : PostBody) : PostResult :=
  let tb := sanitizeBody b
  if !(validateProductB tb) then PostResult.validationError
  else if !(tb.id ≠ "" && tb.category ≠ "" && tb.name ≠ "" && truthyOptStr tb.description
      && !(tb.quantity = none) && truthyOptNum tb.unit_price && tb.code ≠ "") then
    PostResult.missingFields
  else
    PostResult.created
      { id := tb.id, category := tb.category, name := tb.name,
        description := tb.description, quantity := tb.quantity.getD 0,
        unit_price := tb.unit_price.getD 0, code := tb.code,
        created_at := now, updated_at := now }

/-- The mutable fields carried by a (validated) `PUT /api/products/:id`
body, as the handler destructures them. -/
structure UpdateBody where
  category : String
  name : String
  description : Option String
  quantity : Int
  unit_price : ℚ
  code : String
  deriving DecidableEq

/-- The `SET` list of
`UPDATE products SET category = ?, name = ?, description = ?,
quantity = ?, unit_price = ?, code = ? WHERE id = ?` applied to a row:
exactly these six columns are written. -/
def updateRow (b : UpdateBody) (p : Product) : Product :=
  { p with
    category := b.category
    name := b.name
    description := b.description
    quantity := b.quantity
    unit_price := b.unit_price
    code := b.code }

/-- The statement of the `PUT /api/products/:id` handler on a database
state: every row whose `id` matches is overwritten per the `SET` list;
`this.changes` is the number of matched rows. -/
def updateProduct (db : List Product) (id : String) (b : UpdateBody) :
    List Product × Nat :=
  (db.map (fun p => if p.id = id then updateRow b p else p),
   (db.filter (fun p => p.id = id)).length)

/-- Query SELECT SUM(quantity) as totalQuantity FROM products: `NULL`
on an empty table. -/
def sumQuantity (db : List Product) : Option Int :=
  match db with
  | [] => none
  | _ => some ((db.map Product.quantity).sum)

/-- Query SELECT AVG(unit_price) as avgPrice FROM products: `NULL` on
an empty table, otherwise the mean. -/
def avgPrice (db : List Product) : Option ℚ :=
  match db with
  | [] => none
  | _ => some (((db.map Product.unit_price).sum) / (db.length : ℚ))

/-- Query SELECT MIN(unit_price) as minPrice FROM products. -/
def minPriceAgg (db : List Product) : Option ℚ :=
  match db with
  | [] => none
  | p :: ps => some (ps.foldl (fun m q => min m q.unit_price) p.unit_price)

/-- Query SELECT MAX(unit_price) as maxPrice FROM products. -/
def maxPriceAgg (db : List Product) : Option ℚ :=
  match db with
  | [] => none
  | p :: ps => some (ps.foldl (fun m q => max m q.unit_price) p.unit_price)

/-- The distinct `category` strings of the table in order of first
appearance, compared exactly (the `BINARY` collation of the `TEXT`
column, no case folding). -/
def distinctCategories (db : List Product) : List String :=
  db.foldl (fun acc p => if acc.contains p.category then acc else acc ++ [p.category]) []

/-- Query SELECT category, COUNT(*) as count, SUM(quantity) as
totalQuantity FROM products GROUP BY category: one group per distinct
exact category string. -/
def categoryBreakdown (db : List Product) : List (String × Nat × Int) :=
  (distinctCategories db).map fun c =>
    let grp := db.filter (fun p => p.category = c)
    (c, grp.length, (grp.map Product.quantity).sum)

/-- Two-digit zero-padded rendering of a natural number below 100. -/
def pad2 (n : Nat) : String :=
  if n < 10 then "0" ++ Nat.repr n else Nat.repr n

/-- JavaScript toFixed with two digits on a non-negative rational: the
integer `n` minimizing the distance of `n / 100` to the value, ties to
the larger `n`, i.e. `n = ⌊100q + 1/2⌋`, computed here on the reduced
numerator and denominator. -/
def toFixed2Nonneg (q : ℚ) : String :=
  let n := ((2 * q.num * 100 + (q.den : Int)) / (2 * (q.den : Int))).toNat
  Nat.repr (n / 100) ++ "." ++ pad2 (n % 100)

/-- JavaScript toFixed with two digits: negative values render as the
negation prefixed with a minus sign. -/
def toFixed2 (q : ℚ) : String :=
  if q < 0 then "-" ++ toFixed2Nonneg (-q) else toFixed2Nonneg q

/-- The body of a `GET /api/statistics` response (the capture
timestamp is outside the model). -/
structure StatisticsReport where
  totalProducts : Nat
  totalQuantity : Int
  averagePrice : String
  minPrice : String
  maxPrice : String
  categoryCount : Nat
  categoryBreakdown : List (String × Nat × Int)
  deriving DecidableEq

/-- The `GET /api/statistics` handler: each aggregate query, the
`|| 0` null-defaults, and the `.toFixed(2)` renderings. -/
def statistics (db : List Product) : StatisticsReport :=
  { totalProducts := db.length
    totalQuantity := (sumQuantity db).getD 0
    averagePrice := toFixed2 ((avgPrice db).getD 0)
    minPrice := toFixed2 ((minPriceAgg db).getD 0)
    maxPrice := toFixed2 ((maxPriceAgg db).getD 0)
    categoryCount := (distinctCategories db).length
    categoryBreakdown := categoryBreakdown db }

/-- Replacement of each double quote by a doubled double quote (the
global regex replace applied to the description). -/
def escapeQuotes (s : String) : String :=
  ⟨s.data.flatMap fun c => if c = '\x22' then ['\x22', '\x22'] else [c]⟩

/-- Decimal rendering of an integer-valued JavaScript number
(quantities, and the prices exercised here are integer-valued). -/
def jsIntStr (n : Int) : String :=
  n.repr

/-- Digits of the fractional part of a non-negative rational, one digit
per fuel step, stopping at remainder zero. -/
def fracDigits (fuel : Nat) (num den : Nat) : String :=
  match fuel with
  | 0 => ""
  | fuel + 1 =>
      if num = 0 then ""
      else
        let d := num * 10 / den
        Nat.repr d ++ fracDigits fuel (num * 10 % den) den

/-- Decimal rendering of a non-negative JavaScript number: no decimal
point for integer values, otherwise the (terminating, for binary
doubles) decimal expansion. -/
def jsNumStrNonneg (q : ℚ) : String :=
  if q.den = 1 then Int.repr q.num
  else Int.repr (q.num / (q.den : Int)) ++ "." ++ fracDigits 1100 (q.num.toNat % q.den) q.den

/-- Decimal rendering of a JavaScript number as the values array joined by commas
stringifies it. -/
def jsNumStr (q : ℚ) : String :=
  if q < 0 then "-" ++ jsNumStrNonneg (-q) else jsNumStrNonneg q

/-- One record of the CSV export, as the values array joined by commas emits it:
`category`, `name`, `description` wrapped in double quotes, only the
description quote-escaped, `id`, `quantity`, `unit_price`, `code`
bare. A `NULL` description is exported as the empty string. -/
def csvValues (p : Product) : List String :=
  [p.id,
   "\x22" ++ p.category ++ "\x22",
   "\x22" ++ p.name ++ "\x22",
   "\x22" ++ escapeQuotes (p.description.getD "") ++ "\x22",
   jsIntStr p.quantity,
   jsNumStr p.unit_price,
   p.code]

/-- The header row of the CSV export. -/
def csvHeader : String :=
  "ID,Category,Name,Description,Quantity,Unit Price,Code"

/-- JavaScript `Array.prototype.flatten(sep)`. -/
def joinSep (sep : String) : List String → String
  | [] => ""
  | [x] => x
  | x :: y :: xs => x ++ sep ++ joinSep sep (y :: xs)

/-- The `GET /api/products/export/csv` handler: rows ordered by `id`,
header row first, fields joined by commas, lines joined by a newline. -/
def csvExport (db : List Product) : String :=
  let rows := List.insertionSort (fun a b => lexLe a.id.data b.id.data = true) db
  joinSep "\n" (csvHeader :: rows.map fun r => joinSep "," (csvValues r))

/-- Modelled from the spec: one CSV record as §6 of the specification
describes the export — every text field (`id`, `category`, `name`,
`description`, `code` are the `TEXT` columns) double-quoted, internal
quotes escaped by doubling. -/
def csvValuesSpec (p : Product) : List String :=
  ["\x22" ++ escapeQuotes p.id ++ "\x22",
   "\x22" ++ escapeQuotes p.category ++ "\x22",
   "\x22" ++ escapeQuotes p.name ++ "\x22",
   "\x22" ++ escapeQuotes (p.description.getD "") ++ "\x22",
   jsIntStr p.quantity,
   jsNumStr p.unit_price,
   "\x22" ++ escapeQuotes p.code ++ "\x22"]

/-- Modelled from the spec: the CSV body with every text field of
every record double-quoted and quote-escaped, same header and row
order as the export. -/
def csvExportSpec (db : List Product) : String :=
  let rows := List.insertionSort (fun a b => lexLe a.id.data b.id.data = true) db
  joinSep "\n" (csvHeader :: rows.map fun r => joinSep "," (csvValuesSpec r))

/-- The `WHERE`-clause text both built queries append to their common
`WHERE 1=1` base: one clause per truthy filter field, in handler
order. -/
def whereSuffix (req : ListRequest) : String :=
  (if truthy req.category then " AND category LIKE ?" else "")
  ++ (if truthy req.search then " AND (name LIKE ? OR description LIKE ? OR code LIKE ?)"
      else "")
  ++ (if truthy req.minPrice then " AND unit_price >= ?" else "")
  ++ (if truthy req.maxPrice then " AND unit_price <= ?" else "")

/-- The filter parameters both queries are bound with, in push order. -/
def filterParams (req : ListRequest) : List SQLParam :=
  (if truthy req.category then [SQLParam.str ("%" ++ req.category.getD "" ++ "%")] else [])
  ++ (if truthy req.search then
        [SQLParam.str ("%" ++ req.search.getD "" ++ "%"),
         SQLParam.str ("%" ++ req.search.getD "" ++ "%"),
         SQLParam.str ("%" ++ req.search.getD "" ++ "%")]
      else [])
  ++ (if truthy req.minPrice then [SQLParam.num (parseFloatJS (req.minPrice.getD ""))] else [])
  ++ (if truthy req.maxPrice then [SQLParam.num (parseFloatJS (req.maxPrice.getD ""))] else [])

/-- Does a rendered statistics field have exactly two digits after a
decimal point? -/
def twoDecimalString (f : String) : Prop :=
  ∃ s t, f = s ++ "." ++ t ∧ t.length = 2 ∧ t.data.all Char.isDigit = true

/-- A sample table row used to instantiate universally quantified
theorems at concrete inputs. -/
def sampleRow : Product :=
  { id := "111-11", category := "Toys", name := "Ball", description := some "round",
    quantity := 4, unit_price := 2, code := "B1", created_at := 0, updated_at := 0 }

/-- A second sample row whose `id` sorts after `sampleRow`. -/
def sampleRow2 : Product :=
  { id := "111-12", category := "Games", name := "Deck", description := none,
    quantity := 7, unit_price := 3, code := "B2", created_at := 0, updated_at := 0 }

/-- Row 000-01 of the reference dataset (`scripts/seed-db.js`). -/
def seed01 : Product :=
  { id := "000-01", category := "clothing", name := "bohoo clothes",
    description := some "It\x27s time to be the MAN! Discover boohooMAN\x27s logo collection and fill up your wardrobe with these exclusive MAN branded items. Discover the MAN logo hoodies, the t-shirts, the tracksuits, the accessories (and much, much more) and add some attitude to your casual outfit.",
    quantity := 300, unit_price := 30, code := "000-01",
    created_at := 0, updated_at := 0 }

/-- Row 000-02 of the reference dataset (`scripts/seed-db.js`). -/
def seed02 : Product :=
  { id := "000-02", category := "footwear", name := "shoes",
    description := some "Step into the party season in style with our exclusive selection of men\x27s smart shoes. From the classic real leather cap brogues to the trendy heavy soled tassel loafers, whether it\x27s a special event or a day in the office, this collection will impeccably complement any smart outfit and make you look dapper.",
    quantity := 115, unit_price := 118, code := "000-02",
    created_at := 0, updated_at := 0 }

/-- Row 000-03 of the reference dataset (`scripts/seed-db.js`). -/
def seed03 : Product :=
  { id := "000-03", category := "Accessories", name := "rings",
    description := some "finish off your outfit with a cool piece of men\x27s jewellery from boohooMAN\x27s collection of jewellery and watches for men. Choose from loads of uber-trendy accessories including men\x27s rings",
    quantity := 218, unit_price := 74, code := "000-03",
    created_at := 0, updated_at := 0 }

/-- Row 000-04 of the reference dataset (`scripts/seed-db.js`). -/
def seed04 : Product :=
  { id := "000-04", category := "clothing", name := "shirts",
    description := some "Level up your shirt game with our extensive range of shirts in long and short sleeve styles! Whether you\x27re looking for a classic Oxford shirt, or a check shirt, a cool but casual print or a go-to denim, we\x27ve got all the staples a man\x27s wardrobe needs",
    quantity := 164, unit_price := 69, code := "000-04",
    created_at := 0, updated_at := 0 }

/-- Row 000-05 of the reference dataset (`scripts/seed-db.js`). -/
def seed05 : Product :=
  { id := "000-05", category := "clothing", name := "jackets",
    description := some "A good coat is the backbone of any man\x27s wardrobe, and with a huge range of men\x27s puffers, macs, bombers, parkas, and more, we\x27re here to ensure your outerwear is on-point through rain, hail, sleet, or shine.",
    quantity := 97, unit_price := 198, code := "000-05",
    created_at := 0, updated_at := 0 }

/-- Row 000-06 of the reference dataset (`scripts/seed-db.js`). -/
def seed06 : Product :=
  { id := "000-06", category := "Clothing", name := "Trousers",
    description := some "neeed some trousers for every season go to boohoomans website and get one.",
    quantity := 59, unit_price := 98, code := "000-06",
    created_at := 0, updated_at := 0 }

/-- Row 000-07 of the reference dataset (`scripts/seed-db.js`). -/
def seed07 : Product :=
  { id := "000-07", category := "Clothing", name := "boohoo Hoodie",
    description := some "THoodie or sweatshirt? No need to choose: our selection of men\x27s tops includes a variety of hoodies and sweatshirts available in different colours, styles and fits. Both hoodies and sweatshirts are must-haves in every man\x27s casual wardrobe, and very versatile pieces of clothing.",
    quantity := 100, unit_price := 60, code := "000-07",
    created_at := 0, updated_at := 0 }

/-- Row 000-08 of the reference dataset (`scripts/seed-db.js`). -/
def seed08 : Product :=
  { id := "000-08", category := "Casual wear", name := "sunglasses",
    description := some "Choosing the right pair of men\x27s sunglasses is a must and it needs to be done right. boohooMAN have trendy but affordable sunglasses for men that are only a click away!.",
    quantity := 100, unit_price := 45, code := "000-08",
    created_at := 0, updated_at := 0 }

/-- Row 000-09 of the reference dataset (`scripts/seed-db.js`). -/
def seed09 : Product :=
  { id := "000-09", category := "Casual wear", name := "belts",
    description := some "Get some serious style skills under your belt with boohooMAN\x27s range of men\x27s belts! Whether you want to complement your everyday look or add the finishing touch to your smart outfit, our selection of real and faux leather belts is just all you need to wear.",
    quantity := 173, unit_price := 60, code := "000-09",
    created_at := 0, updated_at := 0 }

/-- Row 000-10 of the reference dataset (`scripts/seed-db.js`). -/
def seed10 : Product :=
  { id := "000-10", category := "Bags", name := "casual wear",
    description := some "Too much stuff to carry around? Worry no more...boohooMAN\x27s new range of men\x27s bags and men\x27s wallets is here to give your hands a break! Check out our extensive selection of MAN embroidered men\x27s bags, cross body bags, holdalls and much, much more.",
    quantity := 138, unit_price := 40, code := "000-10",
    created_at := 0, updated_at := 0 }

/-- The 10-row reference dataset seeded by `scripts/seed-db.js`. -/
def seedProducts : List Product :=
  [seed01, seed02, seed03, seed04, seed05, seed06, seed07, seed08, seed09, seed10]

/-- Number of pages needed to cover `t` rows at a positive page size
`l` (natural ceiling division); equals the reported `totalPages`. -/
def numPages (t : Nat) (l : Int) : Nat :=
  (t + l.toNat - 1) / l.toNat

/-- A sample valid update body for instantiating theorems. -/
def sampleUpdate : UpdateBody :=
  { category := "Games", name := "Cube", description := some "square", quantity := 9,
    unit_price := 5, code := "B9" }

/-- A row whose `category` and `description` contain a double-quote
character, used against the CSV export. -/
def quoteRow : Product :=
  { id := "222-22", category := "a\x22b", name := "plain", description := some "d\x22e",
    quantity := 1, unit_price := 2, code := "C7", created_at := 0, updated_at := 0 }

/-- A `POST` body that satisfies every data-model constraint and omits
the optional `description`. -/
def postNoDescription : PostBody :=
  { id := "123-45", category := "Toys", name := "Ball", description := none,
    quantity := some 5, unit_price := some 3, code := "B1" }

/-- A `POST` body that satisfies every data-model constraint with
`unit_price = 0`. -/
def postZeroPrice : PostBody :=
  { id := "123-46", category := "Toys", name := "Stick", description := some "wooden",
    quantity := some 5, unit_price := some 0, code := "B2" }

/-- The two built query texts extend their two fixed bases by the same
`WHERE`-clause suffix, and carry the filter parameters in push order. -/
theorem buildQueries_eq (req : ListRequest) :
    buildQueries req =
      { query := "SELECT * FROM products WHERE 1=1" ++ whereSuffix req ++ " ORDER BY "
          ++ sortColumn req ++ " " ++ sortOrder req ++ " LIMIT ? OFFSET ?"
        countQuery := "SELECT COUNT(*) as total FROM products WHERE 1=1" ++ whereSuffix req
        params := filterParams req } := by
  unfold buildQueries addCategory addSearch addMinPrice addMaxPrice whereSuffix filterParams
  cases h1 : truthy req.category <;> cases h2 : truthy req.search <;>
    cases h3 : truthy req.minPrice <;> cases h4 : truthy req.maxPrice <;>
    simp [h1, h2, h3, h4, String.append_assoc, List.append_assoc]

/-- C2: for every list request, the count query and the page query are
built with an identical `WHERE` clause from the same predicate list;
the count query runs with exactly the filter parameter array and the
page query with the same array extended only by the `LIMIT`/`OFFSET`
values. -/
theorem claimC2_shared_where_clause (req : ListRequest) :
    ∃ w,
      (buildQueries req).query = "SELECT * FROM products WHERE 1=1" ++ w ++ " ORDER BY "
          ++ sortColumn req ++ " " ++ sortOrder req ++ " LIMIT ? OFFSET ?" ∧
      (buildQueries req).countQuery = "SELECT COUNT(*) as total FROM products WHERE 1=1" ++ w ∧
      countExecParams req = (buildQueries req).params ∧
      pageExecParams req = countExecParams req
        ++ [SQLParam.int (limitNum req), SQLParam.int (listOffset req)] :=
  ⟨whereSuffix req, by rw [buildQueries_eq], by rw [buildQueries_eq], rfl, rfl⟩

/-- C1: an out-of-allow-list `sortBy` builds the very queries (and the
very responses) that `sortBy=id` builds; an `order` other than `DESC`
case-insensitively builds what `order=ASC` builds; the substituted sort
column and direction always come from the fixed sets. -/
theorem claimC1_sort_allowlist (req : ListRequest) :
    (validSortColumns.contains (req.sortBy.getD "id") = false →
      buildQueries req = buildQueries { req with sortBy := some "id" } ∧
      ∀ db, listProducts req db = listProducts { req with sortBy := some "id" } db) ∧
    (¬(asciiUpper (req.order.getD "ASC") = "DESC") →
      buildQueries req = buildQueries { req with order := some "ASC" } ∧
      ∀ db, listProducts req db = listProducts { req with order := some "ASC" } db) ∧
    validSortColumns.contains (sortColumn req) = true ∧
    (sortOrder req = "ASC" ∨ sortOrder req = "DESC") := by
  refine ⟨fun h => ?_, fun h => ?_, ?_, ?_⟩
  · have hcol : sortColumn req = "id" := by unfold sortColumn; rw [h]; rfl
    have hcol2 : sortColumn { req with sortBy := some "id" } = "id" := rfl
    constructor
    · rw [buildQueries_eq, buildQueries_eq, hcol, hcol2]; rfl
    · intro db
      unfold listProducts sortRows
      rw [hcol, hcol2]; rfl
  · have hord : sortOrder req = "ASC" := by
      unfold sortOrder
      rw [if_neg (by simpa using h)]
    have hord2 : sortOrder { req with order := some "ASC" } = "ASC" := rfl
    constructor
    · rw [buildQueries_eq, buildQueries_eq, hord, hord2]; rfl
    · intro db
      unfold listProducts sortRows
      rw [hord, hord2]; rfl
  · unfold sortColumn
    split
    · assumption
    · decide
  · unfold sortOrder
    split
    · right; rfl
    · left; rfl

/-- Witness for C1 at a concrete request: an injection-style `sortBy`
and a non-`DESC` `order`. -/
theorem claimC1_witness :
    (buildQueries { sortBy := some "price; DROP TABLE products", order := some "descending" }
      = buildQueries { sortBy := some "id", order := some "descending" }) ∧
    (buildQueries { sortBy := some "price; DROP TABLE products", order := some "descending" }
      = buildQueries { sortBy := some "price; DROP TABLE products", order := some "ASC" }) := by
  have h := claimC1_sort_allowlist
    { sortBy := some "price; DROP TABLE products", order := some "descending" }
  exact ⟨(h.1 (by decide)).1, (h.2.1 (by decide)).1⟩

/-- Lower bound of ceiling division: `n` pages of size `l` cover `t`
rows. -/
theorem le_ceilDiv_mul (t n : Nat) (hn : 0 < n) : t ≤ (t + n - 1) / n * n := by
  have h1 : (t + n - 1) / n * n + (t + n - 1) % n = t + n - 1 := by
    rw [Nat.mul_comm ((t + n - 1) / n) n]
    exact Nat.div_add_mod _ _
  have h2 := Nat.mod_lt (t + n - 1) hn
  omega

/-- Computing Math.ceil(total / limit) for a positive limit equals
natural ceiling division. -/
theorem totalPagesOf_eq (t : Nat) (l : Int) (hl : 0 < l) :
    totalPagesOf t l = (((t + l.toNat - 1) / l.toNat : Nat) : Int) := by
  have hn0 : 0 < l.toNat := by omega
  have hl2 : l = (l.toNat : Int) := by omega
  set n := l.toNat with hn
  have hq : (0 : ℚ) < (n : ℚ) := by exact_mod_cast hn0
  set q := (t + n - 1) / n with hqdef
  rw [totalPagesOf, hl2]
  rw [Int.ceil_eq_iff]
  push_cast
  constructor
  · rw [sub_lt_iff_lt_add, ← sub_lt_iff_lt_add, lt_div_iff₀ hq]
    have hXn : q * n ≤ t + n - 1 := Nat.div_mul_le_self _ _
    have h1n : 1 ≤ t + n := by omega
    have hc : ((q * n : Nat) : ℚ) ≤ ((t + n - 1 : Nat) : ℚ) := by exact_mod_cast hXn
    have hc2 : ((t + n - 1 : Nat) : ℚ) = (t : ℚ) + (n : ℚ) - 1 := by
      push_cast [Nat.cast_sub h1n]
      ring
    have hc3 : ((q * n : Nat) : ℚ) = (q : ℚ) * (n : ℚ) := by push_cast; ring
    have hn1 : (1 : ℚ) ≤ (n : ℚ) := by exact_mod_cast hn0
    nlinarith [hc, hc2, hc3, hn1]
  · rw [div_le_iff₀ hq]
    have := le_ceilDiv_mul t n hn0
    exact_mod_cast this

/-- The page query returns at most `limit` rows whenever the bound
limit is non-negative. -/
theorem length_applyLimitOffset_le (xs : List Product) (lim off : Int) (h : 0 ≤ lim) :
    ((applyLimitOffset xs lim off).length : Int) ≤ lim := by
  unfold applyLimitOffset
  rw [if_neg (by omega)]
  have := List.length_take lim.toNat (xs.drop off.toNat)
  simp only [this]
  omega

/-- C3 as stated is false: `limit=-1` is accepted by the coercion (it
is not a positive integer), and the page then holds more rows than the
limit. -/
theorem claimC3_counterexample :
    limitNum { limit := some "-1" } = -1 ∧
    ¬(0 < limitNum { limit := some "-1" }) ∧
    (listProducts { limit := some "-1" } [sampleRow]).products.length = 1 ∧
    ¬(((listProducts { limit := some "-1" } [sampleRow]).products.length : Int)
        ≤ limitNum { limit := some "-1" }) := by
  refine ⟨by decide, by decide, by decide, ?_⟩
  intro h
  have h1 : (listProducts { limit := some "-1" } [sampleRow]).products.length = 1 := by decide
  have h2 : limitNum { limit := some "-1" } = -1 := by decide
  rw [h1, h2] at h
  omega

/-- C3 amended: `page` and `limit` are coerced with JavaScript
`parseInt`, falling back to `1` / `20` when the value is missing, does
not parse, or parses to `0` (negative values pass through);
`offset = (page-1)*limit` always; for a positive coerced limit
`totalPages` is the ceiling `⌈total/limit⌉`; and the page holds at most
`limit` rows whenever the coerced limit is non-negative. -/
theorem claimC3_pagination (req : ListRequest) (db : List Product) :
    (req.page = none → pageNum req = 1) ∧
    (∀ s, req.page = some s → parseIntJS s = none ∨ parseIntJS s = some 0 → pageNum req = 1) ∧
    (req.limit = none → limitNum req = 20) ∧
    (∀ s, req.limit = some s → parseIntJS s = none ∨ parseIntJS s = some 0 →
      limitNum req = 20) ∧
    listOffset req = (pageNum req - 1) * limitNum req ∧
    (0 < limitNum req →
      (listProducts req db).pagination.totalPages
        = ((((listProducts req db).pagination.total + (limitNum req).toNat - 1)
            / (limitNum req).toNat : Nat) : Int)) ∧
    (0 ≤ limitNum req → ((listProducts req db).products.length : Int) ≤ limitNum req) := by
  refine ⟨?_, ?_, ?_, ?_, rfl, ?_, ?_⟩
  · intro h
    unfold pageNum
    rw [h]
    decide
  · intro s hs hbad
    unfold pageNum
    rw [hs]
    rcases hbad with h | h <;> rw [Option.getD_some, h] <;> rfl
  · intro h
    unfold limitNum
    rw [h]
    decide
  · intro s hs hbad
    unfold limitNum
    rw [hs]
    rcases hbad with h | h <;> rw [Option.getD_some, h] <;> rfl
  · intro h
    exact totalPagesOf_eq _ _ h
  · intro h
    exact length_applyLimitOffset_le _ _ _ h

/-- Witness for the amended C3 at a concrete request with a
non-numeric `page` and `limit`. -/
theorem claimC3_witness :
    pageNum { page := some "abc", limit := some "zz" } = 1 ∧
    limitNum { page := some "abc", limit := some "zz" } = 20 ∧
    (listProducts { page := some "abc", limit := some "zz" } [sampleRow]).pagination.totalPages
      = 1 ∧
    ((listProducts { page := some "abc", limit := some "zz" } [sampleRow]).products.length : Int)
      ≤ 20 := by
  have h := claimC3_pagination { page := some "abc", limit := some "zz" } [sampleRow]
  refine ⟨h.2.1 "abc" rfl (Or.inl (by decide)), h.2.2.2.1 "zz" rfl (Or.inl (by decide)), ?_, ?_⟩
  · have h6 := h.2.2.2.2.2.1 (by decide)
    rw [h6]
    decide
  · exact h.2.2.2.2.2.2 (by decide)

/-- C5: the `POST` handler rejects bodies its own validator chain
accepts. A body with no `description` (optional per the validators and
the data model) and a body with `unit_price = 0` (allowed, the bound
is inclusive) both pass `validateProduct` yet are answered with the
400 `Missing required fields` branch instead of being inserted. -/
theorem claimC5_post_truthiness_bug :
    validateProductB (sanitizeBody postNoDescription) = true ∧
    postProduct 0 postNoDescription = PostResult.missingFields ∧
    validateProductB (sanitizeBody postZeroPrice) = true ∧
    postProduct 0 postZeroPrice = PostResult.missingFields := by
  decide

/-- Rewriting the matched rows a second time with the same `SET`
values changes nothing. -/
theorem updateMap_idem (db : List Product) (id : String) (b : UpdateBody) :
    (db.map fun p => if p.id = id then updateRow b p else p).map
        (fun p => if p.id = id then updateRow b p else p)
      = db.map fun p => if p.id = id then updateRow b p else p := by
  rw [List.map_map]
  apply List.map_congr_left
  intro p _
  by_cases hp : p.id = id <;> simp [Function.comp, hp, updateRow]

/-- The `SET` list never writes `id`, so the matched-row count of a
repeated update is unchanged. -/
theorem updateFilter_len (db : List Product) (id : String) (b : UpdateBody) :
    ((db.map fun p => if p.id = id then updateRow b p else p).filter
        (fun p => p.id = id)).length
      = (db.filter (fun p => p.id = id)).length := by
  rw [List.filter_map, List.length_map]
  congr 1
  apply List.filter_congr
  intro p _
  by_cases hp : p.id = id <;> simp [Function.comp, hp, updateRow]

/-- The six-column `SET` list applied twice with the same values is
the same as applied once, and the matched-row count is unchanged. -/
theorem updateProduct_idem (db : List Product) (id : String) (b : UpdateBody) :
    updateProduct (updateProduct db id b).1 id b = updateProduct db id b := by
  unfold updateProduct
  exact Prod.ext (updateMap_idem db id b) (updateFilter_len db id b)

/-- C9: for an existing product id, performing the same `PUT` twice
leaves the table in the state one `PUT` produces, and both calls match
a row (`this.changes > 0`), i.e. both report success. -/
theorem claimC9_put_idempotent (db : List Product) (id : String) (b : UpdateBody)
    (h : ∃ p ∈ db, p.id = id) :
    updateProduct (updateProduct db id b).1 id b = updateProduct db id b ∧
    0 < (updateProduct db id b).2 ∧
    0 < (updateProduct (updateProduct db id b).1 id b).2 := by
  have hchanges : 0 < (updateProduct db id b).2 := by
    obtain ⟨p, hp, hpid⟩ := h
    have hmem : p ∈ db.filter (fun p => p.id = id) :=
      List.mem_filter.mpr ⟨hp, by simp [hpid]⟩
    have := List.ne_nil_of_mem hmem
    unfold updateProduct
    simpa [List.length_pos] using this
  refine ⟨updateProduct_idem db id b, hchanges, ?_⟩
  rw [updateProduct_idem db id b]
  exact hchanges

/-- Witness for C9: the same update applied twice to a one-row table. -/
theorem claimC9_witness :
    updateProduct (updateProduct [sampleRow] "111-11" sampleUpdate).1 "111-11" sampleUpdate
      = updateProduct [sampleRow] "111-11" sampleUpdate ∧
    0 < (updateProduct [sampleRow] "111-11" sampleUpdate).2 := by
  have h := claimC9_put_idempotent [sampleRow] "111-11" sampleUpdate
    ⟨sampleRow, by decide, by decide⟩
  exact ⟨h.1, h.2.1⟩

/-- C8 as stated is false: the `UPDATE` statement names only the six
mutable columns, so `updated_at` keeps whatever value the row already
had (here `0`, and `7` on a second table), even though the row is
genuinely rewritten (its `name` changes). -/
theorem claimC8_counterexample :
    (updateProduct [sampleRow] "111-11" sampleUpdate).1.map Product.updated_at = [0] ∧
    (updateProduct [{ sampleRow with updated_at := 7 }] "111-11" sampleUpdate).1.map
        Product.updated_at = [7] ∧
    (updateProduct [sampleRow] "111-11" sampleUpdate).1.map Product.name = ["Cube"] ∧
    sampleRow.name = "Ball" := by
  decide

/-- C8 amended: a successful update replaces exactly the six mutable
fields of the matched row with the body values and leaves `id`,
`created_at` and also `updated_at` unchanged; unmatched rows are
untouched. -/
theorem claimC8_update_frame (db : List Product) (id : String) (b : UpdateBody)
    (i : Nat) (p : Product) (h : db[i]? = some p) :
    (updateProduct db id b).1[i]? = some (if p.id = id then updateRow b p else p) ∧
    (updateRow b p).id = p.id ∧
    (updateRow b p).created_at = p.created_at ∧
    (updateRow b p).updated_at = p.updated_at ∧
    (updateRow b p).category = b.category ∧
    (updateRow b p).name = b.name ∧
    (updateRow b p).description = b.description ∧
    (updateRow b p).quantity = b.quantity ∧
    (updateRow b p).unit_price = b.unit_price ∧
    (updateRow b p).code = b.code := by
  refine ⟨?_, rfl, rfl, rfl, rfl, rfl, rfl, rfl, rfl, rfl⟩
  unfold updateProduct
  rw [List.getElem?_map, h]
  rfl

/-- Witness for the amended C8 at a concrete one-row table. -/
theorem claimC8_witness :
    (updateProduct [sampleRow] "111-11" sampleUpdate).1[0]? =
      some (if sampleRow.id = "111-11" then updateRow sampleUpdate sampleRow else sampleRow) ∧
    (updateRow sampleUpdate sampleRow).updated_at = sampleRow.updated_at := by
  have h := claimC8_update_frame [sampleRow] "111-11" sampleUpdate 0 sampleRow rfl
  exact ⟨h.1, h.2.2.2.1⟩

/-- A request whose `minPrice` or `maxPrice` parses to `NaN` matches
no row at all. -/
theorem rowMatches_nan (req : ListRequest) (p : Product)
    (h : (truthy req.minPrice = true ∧ parseFloatJS (req.minPrice.getD "") = JSNum.nan)
      ∨ (truthy req.maxPrice = true ∧ parseFloatJS (req.maxPrice.getD "") = JSNum.nan)) :
    rowMatches req p = false := by
  unfold rowMatches
  rcases h with ⟨ht, hn⟩ | ⟨ht, hn⟩ <;> rw [ht, hn] <;> simp [priceGE, priceLE]

/-- An empty match list yields an empty page and a zero total. -/
theorem listProducts_of_no_match (req : ListRequest) (db : List Product)
    (h : ∀ p ∈ db, rowMatches req p = false) :
    (listProducts req db).products = [] ∧ (listProducts req db).pagination.total = 0 := by
  have hnil : matchedRows req db = [] := by
    unfold matchedRows
    exact List.filter_eq_nil.mpr (by simpa using h)
  unfold listProducts
  rw [hnil]
  constructor
  · unfold sortRows applyLimitOffset
    split <;> simp
  · rfl

/-- C10: a non-empty, non-numeric `minPrice` (or `maxPrice`) still
appends its price clause, binds `NaN` as the parameter, and the
operation returns an empty page with `total = 0` on every database
state, rather than ignoring the malformed filter or rejecting it. -/
theorem claimC10_nan_price_filter (req : ListRequest) :
    (∀ s, req.minPrice = some s → s ≠ "" → parseFloatJS s = JSNum.nan →
      SQLParam.num JSNum.nan ∈ (buildQueries req).params ∧
      (∃ pre post, (buildQueries req).countQuery = pre ++ " AND unit_price >= ?" ++ post) ∧
      (∃ pre post, (buildQueries req).query = pre ++ " AND unit_price >= ?" ++ post) ∧
      ∀ db, (listProducts req db).products = [] ∧
        (listProducts req db).pagination.total = 0) ∧
    (∀ s, req.maxPrice = some s → s ≠ "" → parseFloatJS s = JSNum.nan →
      SQLParam.num JSNum.nan ∈ (buildQueries req).params ∧
      (∃ pre post, (buildQueries req).countQuery = pre ++ " AND unit_price <= ?" ++ post) ∧
      (∃ pre post, (buildQueries req).query = pre ++ " AND unit_price <= ?" ++ post) ∧
      ∀ db, (listProducts req db).products = [] ∧
        (listProducts req db).pagination.total = 0) := by
  constructor
  · intro s hs hne hnan
    have ht : truthy req.minPrice = true := by simp [truthy, hs, hne]
    have hval : parseFloatJS (req.minPrice.getD "") = JSNum.nan := by rw [hs]; exact hnan
    refine ⟨?_, ?_, ?_, fun db => listProducts_of_no_match req db
      (fun p _ => rowMatches_nan req p (Or.inl ⟨ht, hval⟩))⟩
    · rw [buildQueries_eq]
      simp [filterParams, ht, hval]
    · rw [buildQueries_eq]
      refine ⟨"SELECT COUNT(*) as total FROM products WHERE 1=1"
        ++ (if truthy req.category then " AND category LIKE ?" else "")
        ++ (if truthy req.search then
            " AND (name LIKE ? OR description LIKE ? OR code LIKE ?)" else ""),
        (if truthy req.maxPrice then " AND unit_price <= ?" else ""), ?_⟩
      simp [whereSuffix, ht, String.append_assoc]
    · rw [buildQueries_eq]
      refine ⟨"SELECT * FROM products WHERE 1=1"
        ++ (if truthy req.category then " AND category LIKE ?" else "")
        ++ (if truthy req.search then
            " AND (name LIKE ? OR description LIKE ? OR code LIKE ?)" else ""),
        (if truthy req.maxPrice then " AND unit_price <= ?" else "")
          ++ " ORDER BY " ++ sortColumn req ++ " " ++ sortOrder req ++ " LIMIT ? OFFSET ?", ?_⟩
      simp [whereSuffix, ht, String.append_assoc]
  · intro s hs hne hnan
    have ht : truthy req.maxPrice = true := by simp [truthy, hs, hne]
    have hval : parseFloatJS (req.maxPrice.getD "") = JSNum.nan := by rw [hs]; exact hnan
    refine ⟨?_, ?_, ?_, fun db => listProducts_of_no_match req db
      (fun p _ => rowMatches_nan req p (Or.inr ⟨ht, hval⟩))⟩
    · rw [buildQueries_eq]
      simp [filterParams, ht, hval]
    · rw [buildQueries_eq]
      refine ⟨"SELECT COUNT(*) as total FROM products WHERE 1=1"
        ++ (if truthy req.category then " AND category LIKE ?" else "")
        ++ (if truthy req.search then
            " AND (name LIKE ? OR description LIKE ? OR code LIKE ?)" else "")
        ++ (if truthy req.minPrice then " AND unit_price >= ?" else ""), "", ?_⟩
      simp [whereSuffix, ht, String.append_assoc]
    · rw [buildQueries_eq]
      refine ⟨"SELECT * FROM products WHERE 1=1"
        ++ (if truthy req.category then " AND category LIKE ?" else "")
        ++ (if truthy req.search then
            " AND (name LIKE ? OR description LIKE ? OR code LIKE ?)" else "")
        ++ (if truthy req.minPrice then " AND unit_price >= ?" else ""),
        " ORDER BY " ++ sortColumn req ++ " " ++ sortOrder req ++ " LIMIT ? OFFSET ?", ?_⟩
      simp [whereSuffix, ht, String.append_assoc]
      rfl

/-- Witness for C10 at concrete malformed price filters. -/
theorem claimC10_witness :
    SQLParam.num JSNum.nan ∈ (buildQueries { minPrice := some "abc" }).params ∧
    (listProducts { minPrice := some "abc" } [sampleRow]).products = [] ∧
    (listProducts { minPrice := some "abc" } [sampleRow]).pagination.total = 0 ∧
    SQLParam.num JSNum.nan ∈ (buildQueries { maxPrice := some "pq" }).params ∧
    (listProducts { maxPrice := some "pq" } [sampleRow]).products = [] := by
  have h1 := (claimC10_nan_price_filter { minPrice := some "abc" }).1 "abc" rfl
    (by decide) (by decide)
  have h2 := (claimC10_nan_price_filter { maxPrice := some "pq" }).2 "pq" rfl
    (by decide) (by decide)
  exact ⟨h1.1, (h1.2.2.2 [sampleRow]).1, (h1.2.2.2 [sampleRow]).2, h2.1,
    (h2.2.2.2 [sampleRow]).1⟩

/-- Quote-doubling doubles exactly the double-quote characters. -/
theorem count_escapeQuotes (l : List Char) :
    (l.flatMap fun c => if c = '\x22' then ['\x22', '\x22'] else [c]).count '\x22'
      = 2 * l.count '\x22' := by
  induction l with
  | nil => rfl
  | cons c cs ih =>
      rw [List.flatMap_cons, List.count_append, ih, List.count_cons]
      by_cases hc : c = '\x22'
      · subst hc
        simp [List.count_cons]
        omega
      · have hc2 : ('\x22' : Char) ≠ c := Ne.symm hc
        simp [List.count_cons, hc, hc2]

/-- C6 as stated is false: on a row whose `category` contains a double
quote and whose `code` is plain text, the export does not double the
category quote and does not wrap `id` or `code` in quotes, so the
body differs from the all-text-fields-quoted-and-escaped format the
claim describes. -/
theorem claimC6_counterexample :
    csvExport [quoteRow] ≠ csvExportSpec [quoteRow] ∧
    csvExport [quoteRow] =
      "ID,Category,Name,Description,Quantity,Unit Price,Code\n222-22,\x22a\x22b\x22,\x22plain\x22,\x22d\x22\x22e\x22,1,2,C7" := by
  decide

/-- C6 amended: the header row is exactly
`ID,Category,Name,Description,Quantity,Unit Price,Code`; in each
record `category`, `name` and `description` are wrapped in double
quotes and only the internal quotes of the description are doubled, while
`id`, `quantity`, `unit_price` and `code` are emitted bare; quote
escaping doubles exactly the quote characters. -/
theorem claimC6_csv_format (db : List Product) :
    csvHeader = "ID,Category,Name,Description,Quantity,Unit Price,Code" ∧
    csvExport db = joinSep "\n" (csvHeader ::
      (List.insertionSort (fun a b => lexLe a.id.data b.id.data = true) db).map fun p =>
        p.id ++ "," ++ ("\x22" ++ p.category ++ "\x22") ++ ","
          ++ ("\x22" ++ p.name ++ "\x22") ++ ","
          ++ ("\x22" ++ escapeQuotes (p.description.getD "") ++ "\x22") ++ ","
          ++ jsIntStr p.quantity ++ "," ++ jsNumStr p.unit_price ++ "," ++ p.code) ∧
    (∀ s, (escapeQuotes s).data.count '\x22' = 2 * s.data.count '\x22') := by
  refine ⟨rfl, ?_, ?_⟩
  · unfold csvExport
    refine congrArg (joinSep "\n") (congrArg (List.cons csvHeader) ?_)
    apply List.map_congr_left
    intro r _
    simp [joinSep, csvValues, String.append_assoc]
  · intro s
    exact count_escapeQuotes s.data

/-- Two-digit padding of a value below 100 is two digit characters. -/
theorem pad2_shape : ∀ m : Nat, m < 100 →
    (pad2 m).length = 2 ∧ (pad2 m).data.all Char.isDigit = true := by
  decide

/-- Rendering toFixed of a non-negative rational ends in a decimal
point followed by exactly two digits. -/
theorem toFixed2Nonneg_shape (q : ℚ) : twoDecimalString (toFixed2Nonneg q) := by
  unfold toFixed2Nonneg twoDecimalString
  have h := pad2_shape (((2 * q.num * 100 + (q.den : Int)) / (2 * (q.den : Int))).toNat % 100)
    (Nat.mod_lt _ (by omega))
  exact ⟨_, _, rfl, h.1, h.2⟩

/-- Rendering toFixed always produces exactly two digits after the
decimal point. -/
theorem toFixed2_twoDecimal (q : ℚ) : twoDecimalString (toFixed2 q) := by
  unfold toFixed2
  split
  · obtain ⟨s, t, heq, hlen, hdig⟩ := toFixed2Nonneg_shape (-q)
    exact ⟨"-" ++ s, t, by rw [heq]; simp [String.append_assoc], hlen, hdig⟩
  · exact toFixed2Nonneg_shape q

/-- C7: the three price statistics are rendered with exactly two
decimal places and are `0.00` on an empty table (with `totalQuantity`
`0`); the per-category breakdown groups by the exact category string,
so the reference dataset reports `clothing` and `Clothing` as distinct
entries (and `totalProducts = 10`, `totalQuantity = 1464`). -/
theorem claimC7_statistics_report :
    ((statistics []).averagePrice = "0.00" ∧ (statistics []).minPrice = "0.00" ∧
      (statistics []).maxPrice = "0.00" ∧ (statistics []).totalQuantity = 0) ∧
    (∀ db : List Product, twoDecimalString (statistics db).averagePrice ∧
      twoDecimalString (statistics db).minPrice ∧
      twoDecimalString (statistics db).maxPrice) ∧
    (statistics seedProducts).categoryBreakdown =
      [("clothing", 3, 561), ("footwear", 1, 115), ("Accessories", 1, 218),
       ("Clothing", 2, 159), ("Casual wear", 2, 273), ("Bags", 1, 138)] ∧
    ("clothing", 3, 561) ∈ (statistics seedProducts).categoryBreakdown ∧
    ("Clothing", 2, 159) ∈ (statistics seedProducts).categoryBreakdown ∧
    (statistics seedProducts).totalProducts = 10 ∧
    (statistics seedProducts).totalQuantity = 1464 := by
  refine ⟨by decide, fun db => ⟨toFixed2_twoDecimal _, toFixed2_twoDecimal _,
    toFixed2_twoDecimal _⟩, by decide, by decide, by decide, by decide, by decide⟩

/-- The `BINARY` collation order is total. -/
theorem lexLe_total : ∀ as bs : List Char, lexLe as bs = true ∨ lexLe bs as = true := by
  intro as
  induction as with
  | nil => intro bs; left; rfl
  | cons a as ih =>
      intro bs
      cases bs with
      | nil => right; rfl
      | cons b bs =>
          by_cases hab : a = b
          · subst hab
            rcases ih bs with h | h
            · left; simpa [lexLe] using h
            · right; simpa [lexLe] using h
          · rcases lt_trichotomy a b with h | h | h
            · left; simp [lexLe, hab, h]
            · exact absurd h hab
            · right; simp [lexLe, Ne.symm hab, h]

/-- The `BINARY` collation order is transitive. -/
theorem lexLe_trans : ∀ as bs cs : List Char,
    lexLe as bs = true → lexLe bs cs = true → lexLe as cs = true := by
  intro as
  induction as with
  | nil => intro bs cs _ _; rfl
  | cons a as ih =>
      intro bs cs h1 h2
      cases bs with
      | nil => simp [lexLe] at h1
      | cons b bs =>
          cases cs with
          | nil => simp [lexLe] at h2
          | cons c cs =>
              by_cases hab : a = b
              · subst hab
                by_cases hac : a = c
                · subst hac
                  simp only [lexLe, if_pos rfl] at h1 h2 ⊢
                  exact ih bs cs h1 h2
                · simp only [lexLe, if_neg hac] at h2 ⊢
                  exact h2
              · by_cases hbc : b = c
                · subst hbc
                  simp only [lexLe, if_neg hab] at h1 ⊢
                  exact h1
                · simp only [lexLe, if_neg hab, decide_eq_true_eq] at h1
                  simp only [lexLe, if_neg hbc, decide_eq_true_eq] at h2
                  have hac : a ≠ c := fun he => absurd (h1.trans h2) (by rw [he]; exact lt_irrefl c)
                  simp only [lexLe, if_neg hac, decide_eq_true_eq]
                  exact h1.trans h2

/-- Splitting a list into `k` consecutive chunks of size `l` and
concatenating them gives the list back, provided `k` chunks cover its
length. -/
theorem chunks_join (l : Nat) (hl : 0 < l) :
    ∀ (k : Nat) (xs : List Product), xs.length ≤ k * l →
      ((List.range k).map fun i => (xs.drop (i * l)).take l).flatten = xs := by
  intro k
  induction k with
  | zero =>
      intro xs h
      have hx : xs = [] := List.eq_nil_of_length_eq_zero (by omega)
      simp [hx]
  | succ k ih =>
      intro xs h
      rw [List.range_succ_eq_map, List.map_cons, List.map_map, List.flatten_cons]
      have hmap : (List.range k).map ((fun i => (xs.drop (i * l)).take l) ∘ Nat.succ)
          = (List.range k).map fun i => ((xs.drop l).drop (i * l)).take l := by
        apply List.map_congr_left
        intro i _
        simp only [Function.comp]
        rw [List.drop_drop]
        congr 2
        rw [Nat.succ_mul]
        omega
      rw [Nat.succ_mul] at h
      rw [hmap, ih (xs.drop l) (by rw [List.length_drop]; omega)]
      simp only [Nat.zero_mul, List.drop_zero]
      exact List.take_append_drop l xs

/-- C4: with no optional filter supplied the composed predicate
accepts every row, the reported total is the table size, the reported
`totalPages` matches, and walking all pages in order concatenates to
the whole table sorted by `id` ascending (a permutation of the table,
sorted under the `BINARY` order on `id`). -/
theorem claimC4_no_filter (db : List Product) (l : Int) (hl : 0 < l)
    (reqs : Nat → ListRequest)
    (hreq : ∀ i, i < numPages db.length l →
      (reqs i).category = none ∧ (reqs i).search = none ∧
      (reqs i).minPrice = none ∧ (reqs i).maxPrice = none ∧
      (reqs i).sortBy = none ∧ (reqs i).order = none ∧
      limitNum (reqs i) = l ∧ pageNum (reqs i) = (i : Int) + 1) :
    (∀ i, i < numPages db.length l → ∀ p : Product, rowMatches (reqs i) p = true) ∧
    (∀ i, i < numPages db.length l →
      (listProducts (reqs i) db).pagination.total = db.length ∧
      (listProducts (reqs i) db).pagination.totalPages = (numPages db.length l : Int)) ∧
    ((List.range (numPages db.length l)).map
        (fun i => (listProducts (reqs i) db).products)).flatten
      = List.insertionSort (fun a b : Product => lexLe a.id.data b.id.data = true) db ∧
    (((List.range (numPages db.length l)).map
        (fun i => (listProducts (reqs i) db).products)).flatten).Perm db ∧
    List.Sorted (fun a b : Product => lexLe a.id.data b.id.data = true)
      (((List.range (numPages db.length l)).map
        (fun i => (listProducts (reqs i) db).products)).flatten) := by
  have hn : 0 < l.toNat := by omega
  have hmatch : ∀ i, i < numPages db.length l → ∀ p : Product,
      rowMatches (reqs i) p = true := by
    intro i hi p
    obtain ⟨h1, h2, h3, h4, -⟩ := hreq i hi
    simp [rowMatches, truthy, h1, h2, h3, h4]
  have hmatched : ∀ i, i < numPages db.length l → matchedRows (reqs i) db = db := by
    intro i hi
    exact List.filter_eq_self.mpr (fun p _ => hmatch i hi p)
  have hsortRows : ∀ i, i < numPages db.length l →
      sortRows (reqs i) db
        = List.insertionSort (fun a b : Product => lexLe a.id.data b.id.data = true) db := by
    intro i hi
    obtain ⟨-, -, -, -, hsb, hor, -, -⟩ := hreq i hi
    unfold sortRows sortOrder sortColumn
    rw [hsb, hor]
    rfl
  have hprod : ∀ i, i < numPages db.length l →
      (listProducts (reqs i) db).products
        = ((List.insertionSort (fun a b : Product => lexLe a.id.data b.id.data = true)
            db).drop (i * l.toNat)).take l.toNat := by
    intro i hi
    obtain ⟨-, -, -, -, -, -, hlim, hpage⟩ := hreq i hi
    show applyLimitOffset (sortRows (reqs i) (matchedRows (reqs i) db))
        (limitNum (reqs i)) (listOffset (reqs i)) = _
    rw [hmatched i hi, hsortRows i hi]
    unfold applyLimitOffset listOffset
    rw [hlim, hpage, if_neg (by omega)]
    have hoff : (((i : Int) + 1 - 1) * l).toNat = i * l.toNat := by
      have hc : ((i : Int) + 1 - 1) * l = ((i * l.toNat : Nat) : Int) := by
        push_cast
        rw [Int.toNat_of_nonneg (le_of_lt hl)]
        ring
      rw [hc, Int.toNat_natCast]
    rw [hoff]
  have hlen : (List.insertionSort (fun a b : Product => lexLe a.id.data b.id.data = true)
      db).length = db.length :=
    (List.perm_insertionSort _ db).length_eq
  have hjoin : ((List.range (numPages db.length l)).map
      (fun i => (listProducts (reqs i) db).products)).flatten
      = List.insertionSort (fun a b : Product => lexLe a.id.data b.id.data = true) db := by
    rw [List.map_congr_left (fun i hi => hprod i (List.mem_range.mp hi))]
    refine chunks_join l.toNat hn (numPages db.length l) _ ?_
    rw [hlen]
    exact le_ceilDiv_mul db.length l.toNat hn
  haveI : IsTotal Product (fun a b : Product => lexLe a.id.data b.id.data = true) :=
    ⟨fun a b => lexLe_total a.id.data b.id.data⟩
  haveI : IsTrans Product (fun a b : Product => lexLe a.id.data b.id.data = true) :=
    ⟨fun a b c => lexLe_trans a.id.data b.id.data c.id.data⟩
  refine ⟨hmatch, ?_, hjoin, ?_, ?_⟩
  · intro i hi
    constructor
    · show (matchedRows (reqs i) db).length = db.length
      rw [hmatched i hi]
    · show totalPagesOf (matchedRows (reqs i) db).length (limitNum (reqs i))
          = (numPages db.length l : Int)
      rw [hmatched i hi, (hreq i hi).2.2.2.2.2.2.1]
      exact totalPagesOf_eq db.length l hl
  · rw [hjoin]
    exact List.perm_insertionSort _ db
  · rw [hjoin]
    exact List.sorted_insertionSort _ db

/-- Witness for C4: two one-row pages walk a two-row table back in
`id` order. -/
theorem claimC4_witness :
    ((List.range 2).map fun i =>
        (listProducts { page := some (Nat.repr (i + 1)), limit := some "1" }
          [sampleRow2, sampleRow]).products).flatten = [sampleRow, sampleRow2] ∧
    (listProducts { page := some "1", limit := some "1" }
        [sampleRow2, sampleRow]).pagination.total = 2 := by
  have h := claimC4_no_filter [sampleRow2, sampleRow] 1 (by decide)
    (fun i => { page := some (Nat.repr (i + 1)), limit := some "1" }) (by decide)
  have hK : numPages ([sampleRow2, sampleRow] : List Product).length 1 = 2 := by decide
  rw [hK] at h
  constructor
  · rw [h.2.2.1]
    decide
  · have := (h.2.1 0 (by decide)).1
    simpa using this

end LookupTool
